import Mathlib

/-!
Shallow embedding of `pkg/provisioner/resourcehandlers.go` of
lib-bucket-provisioner.  The repository snapshot holds two Go packages:
`provisioner` (the resource handlers) and an older `util` package with the
exported variants (`NewCredentialsSecret`, `NewBucketConfigMap`,
`CreateUntilDefaultTimeout`, `TranslateReclaimPolicy`, ...).  Both are
embedded below, each in its own namespace.

Modelling conventions:
- Go errors are the inductive `KErr`; `errors.IsAlreadyExists` /
  `errors.IsNotFound` become constructor tests; `fmt.Errorf` wrapping is
  `KErr.wrapped`; `wait.ErrWaitTimeout` is `KErr.waitTimeout`.
- `wait.PollImmediate(interval, timeout, cond)` is modelled by structural
  recursion on a fuel counter counting the attempts the (interval, timeout)
  budget allows; the first attempt is immediate, so every entry point calls
  the loop with `fuel + 1` attempts; exhausting the fuel yields
  `KErr.waitTimeout`, and an error returned by the condition aborts the
  poll at once, exactly as the Go `wait` package does.
- The store is an oracle: for poll loops, a function from the attempt index
  (and, for status updates, the object sent) to the store's response; for
  the single-shot release paths, a record of response functions.  The
  release functions additionally return the list of store operations they
  performed, in order, so that "no store calls" and "fetch before write"
  are stated directly.
- Go `map[string]string` literals become association lists in the literal's
  key order, read back with `lookupKey`.
- `path.Join` (with its internal `path.Clean`) is embedded in full as
  `util.pathJoin`; the net/url round-trip `url.Parse` → `URL.String()` is a
  parameter of the ConfigMap builder (`util.UrlRoundtrip`), constrained by
  each theorem only on the composed string at hand.
-/

/-- Errors returned by the store / apimachinery, as the Go code
distinguishes them. `transientE` stands for any other (assumed transient)
store error. -/
inductive KErr where
  | alreadyExists
  | notFound
  | conflict
  | waitTimeout
  | invalidInput (msg : String)
  | transientE (msg : String)
  | wrapped (ctx : String) (e : KErr)
deriving DecidableEq, Repr

/-- Embeds `errors.IsAlreadyExists`. -/
def KErr.isAlreadyExists : KErr → Bool
  | .alreadyExists => true
  | _ => false

/-- Embeds `errors.IsNotFound`. -/
def KErr.isNotFound : KErr → Bool
  | .notFound => true
  | _ => false

/-- The fields of `metav1.ObjectMeta` this code reads or writes
(`namespc` embeds the Go field `Namespace`, a Lean keyword). -/
structure OwnerReference where
  kind : String
  name : String
deriving DecidableEq, Repr

structure ObjectMeta where
  name : String
  namespc : String
  finalizers : List String
  ownerReferences : List OwnerReference
deriving DecidableEq, Repr

/-- `v1alpha1.Endpoint`: where the bucket lives. -/
structure Endpoint where
  bucketHost : String
  bucketPort : Int
  bucketName : String
  region : String
  subRegion : String
  ssl : Bool
deriving DecidableEq, Repr

/-- The fields of `v1alpha1.ObjectBucketClaimSpec` this code reads. -/
structure ObjectBucketClaimSpec where
  storageClassName : String
  bucketName : String
  ssl : Bool
deriving DecidableEq, Repr

structure ObjectBucketClaimStatus where
  phase : String
deriving DecidableEq, Repr

structure ObjectBucketClaim where
  metadata : ObjectMeta
  spec : ObjectBucketClaimSpec
  status : ObjectBucketClaimStatus
deriving DecidableEq, Repr

structure ObjectBucketStatus where
  phase : String
deriving DecidableEq, Repr

/-- `v1alpha1.ObjectBucket` (cluster-scoped; its `metadata.namespc` stays
empty). The connection payload is irrelevant to the handlers embedded
here and is omitted. -/
structure ObjectBucket where
  metadata : ObjectMeta
  status : ObjectBucketStatus
deriving DecidableEq, Repr

/-- Modelled from the spec: `v1alpha1.Authentication` is a value object
"carrying credential key-value pairs"; its `ToMap()` returns them.  The
type itself is not under `src/`. -/
structure Authentication where
  toMap : List (String × String)
deriving DecidableEq, Repr

structure ConfigMap where
  metadata : ObjectMeta
  data : List (String × String)
deriving DecidableEq, Repr

structure Secret where
  metadata : ObjectMeta
  stringData : List (String × String)
deriving DecidableEq, Repr

/-- Embeds `strconv.FormatBool`. -/
def formatBool (b : Bool) : String := if b then "true" else "false"

/-- Embeds `strings.ToLower` (on the ASCII inputs this code handles). -/
def strToLower (s : String) : String := ⟨s.data.map Char.toLower⟩

/-- Reads a key back from an embedded Go `map[string]string` literal. -/
def lookupKey (k : String) : List (String × String) → Option String
  | [] => none
  | (k', v) :: rest => if k = k' then some v else lookupKey k rest

/-- Modelled from the spec: `makeOwnerReference(obc)` is called by the
builders but defined outside `src/`; the spec describes it as the
"ownership link back to its Claim". -/
def makeOwnerReference (obc : ObjectBucketClaim) : OwnerReference :=
  { kind := "ObjectBucketClaim", name := obc.metadata.name }

namespace provisioner

/-- `finalizer = api.Domain + "/finalizer"`; `api.Domain` lives outside
`src/` and is modelled from the spec's domain `objectbucket.io` (the
`util` package spells the same value out as `DomainPrefix`). -/
def finalizer : String := "objectbucket.io" ++ "/finalizer"

def bucketName : String := "BUCKET_NAME"
def bucketHost : String := "BUCKET_HOST"
def bucketPort : String := "BUCKET_PORT"
def bucketRegion : String := "BUCKET_REGION"
def bucketSubRegion : String := "BUCKET_SUBREGION"
def bucketSSL : String := "BUCKET_SSL"

/-- Modelled from the spec: `removeFinalizer` is called by every release
function but defined outside `src/`; the spec's algorithm is "remove the
finalizer token from its finalizer set". -/
def removeFinalizerMeta (m : ObjectMeta) : ObjectMeta :=
  { m with finalizers := m.finalizers.filter (fun f => f ≠ finalizer) }

def removeFinalizerCM (cm : ConfigMap) : ConfigMap :=
  { cm with metadata := removeFinalizerMeta cm.metadata }

def removeFinalizerSecret (s : Secret) : Secret :=
  { s with metadata := removeFinalizerMeta s.metadata }

def removeFinalizerOBC (obc : ObjectBucketClaim) : ObjectBucketClaim :=
  { obc with metadata := removeFinalizerMeta obc.metadata }

def removeFinalizerOB (ob : ObjectBucket) : ObjectBucket :=
  { ob with metadata := removeFinalizerMeta ob.metadata }

/-- Embeds `newBucketConfigMap` (package `provisioner`): nil checks, then a
ConfigMap named after the OBC with one finalizer, one owner reference, and
the six data keys in the literal's order. -/
def newBucketConfigMap (ep : Option Endpoint) (obc : Option ObjectBucketClaim) :
    Except KErr ConfigMap :=
  match ep with
  | none => .error (.invalidInput "cannot construct configMap, got nil Endpoint")
  | some ep =>
    match obc with
    | none => .error (.invalidInput "cannot construct configMap, got nil OBC")
    | some obc =>
      .ok {
        metadata := {
          name := obc.metadata.name
          namespc := obc.metadata.namespc
          finalizers := [finalizer]
          ownerReferences := [makeOwnerReference obc] }
        data := [
          (bucketName, ep.bucketName),
          (bucketHost, ep.bucketHost),
          (bucketPort, toString ep.bucketPort),
          (bucketSSL, formatBool ep.ssl),
          (bucketRegion, ep.region),
          (bucketSubRegion, ep.subRegion)] }

/-- Embeds `newCredentialsSecret` (package `provisioner`): nil checks, then
a Secret named after the OBC with one finalizer, one owner reference, and
`StringData := auth.ToMap()`. -/
def newCredentialsSecret (obc : Option ObjectBucketClaim) (auth : Option Authentication) :
    Except KErr Secret :=
  match obc with
  | none => .error (.invalidInput "ObjectBucketClaim required to generate secret")
  | some obc =>
    match auth with
    | none => .error (.invalidInput "got nil authentication, nothing to do")
    | some auth =>
      .ok {
        metadata := {
          name := obc.metadata.name
          namespc := obc.metadata.namespc
          finalizers := [finalizer]
          ownerReferences := [makeOwnerReference obc] }
        stringData := auth.toMap }

/-- The poll body of `createObjectBucket`: each attempt calls
`Create(ob)`; on `IsAlreadyExists` the error is cleared (the result stays
whatever the failed call returned, modelled `none`); the closure then runs
`return (err == nil), err`, so a non-nil error is handed to
`wait.PollImmediate`, which aborts the poll with it.  `resp i` is the
store's response to the i-th `Create` call. -/
def createObjectBucketAttempts (resp : Nat → Except KErr ObjectBucket) :
    Nat → Nat → Except KErr (Option ObjectBucket)
  | 0, _ => .error .waitTimeout
  | _ + 1, i =>
    match resp i with
    | .ok ob => .ok (some ob)
    | .error e =>
      if e.isAlreadyExists then .ok none
      else .error e

/-- Embeds `createObjectBucket`: `PollImmediate` makes the first attempt
immediately, hence `fuel + 1` attempts for a budget of `fuel` ticks. -/
def createObjectBucket (resp : Nat → Except KErr ObjectBucket) (fuel : Nat) :
    Except KErr (Option ObjectBucket) :=
  createObjectBucketAttempts resp (fuel + 1) 0

/-- The poll body of `createSecret`: success stops the poll with the stored
secret; `IsAlreadyExists` returns `(true, err)`, so `PollImmediate` hands
that very error to the caller; any other error returns `(false, nil)` and
the poll retries at the next tick, timing out with `wait.ErrWaitTimeout`. -/
def createSecretAttempts (resp : Nat → Except KErr Secret) :
    Nat → Nat → Except KErr Secret
  | 0, _ => .error .waitTimeout
  | fuel + 1, i =>
    match resp i with
    | .ok s => .ok s
    | .error e =>
      if e.isAlreadyExists then .error e
      else createSecretAttempts resp fuel (i + 1)

/-- Embeds `createSecret`: build via `newCredentialsSecret`, then poll. -/
def createSecret (obc : Option ObjectBucketClaim) (auth : Option Authentication)
    (resp : Nat → Except KErr Secret) (fuel : Nat) : Except KErr Secret :=
  match newCredentialsSecret obc auth with
  | .error e => .error e
  | .ok _ => createSecretAttempts resp (fuel + 1) 0

/-- The poll body of `createConfigMap`; identical in shape to
`createSecretAttempts`. -/
def createConfigMapAttempts (resp : Nat → Except KErr ConfigMap) :
    Nat → Nat → Except KErr ConfigMap
  | 0, _ => .error .waitTimeout
  | fuel + 1, i =>
    match resp i with
    | .ok cm => .ok cm
    | .error e =>
      if e.isAlreadyExists then .error e
      else createConfigMapAttempts resp fuel (i + 1)

/-- Embeds `createConfigMap`: build via `newBucketConfigMap`, then poll. -/
def createConfigMap (obc : Option ObjectBucketClaim) (ep : Option Endpoint)
    (resp : Nat → Except KErr ConfigMap) (fuel : Nat) : Except KErr ConfigMap :=
  match newBucketConfigMap ep obc with
  | .error e => .error e
  | .ok _ => createConfigMapAttempts resp (fuel + 1) 0

/-- The store operations the release paths can issue, with their
arguments, in the order performed. -/
inductive StoreOp where
  | getConfigMap (namespc name : String)
  | updateConfigMap (cm : ConfigMap)
  | getSecret (namespc name : String)
  | updateSecret (s : Secret)
  | getOBC (namespc name : String)
  | updateOBC (o : ObjectBucketClaim)
  | updateOB (o : ObjectBucket)
  | deleteOB (name : String)
deriving DecidableEq, Repr

/-- Whether an operation is a fetch from the store. -/
def StoreOp.isGet : StoreOp → Bool
  | .getConfigMap _ _ => true
  | .getSecret _ _ => true
  | .getOBC _ _ => true
  | _ => false

/-- `kubernetes.Interface`, restricted to the calls the release paths
make, as an oracle of store responses. -/
structure KubeClient where
  getConfigMap : String → String → Except KErr ConfigMap
  updateConfigMap : ConfigMap → Except KErr ConfigMap
  getSecret : String → String → Except KErr Secret
  updateSecret : Secret → Except KErr Secret

/-- `versioned.Interface`, restricted to the calls the release paths
make. -/
structure ObClient where
  getOBC : String → String → Except KErr ObjectBucketClaim
  updateOBC : ObjectBucketClaim → Except KErr ObjectBucketClaim
  updateOB : ObjectBucket → Except KErr ObjectBucket
  deleteOB : String → Except KErr Unit

/-- Embeds `releaseConfigMap`: nil is a no-op; otherwise Get the latest
version, remove the finalizer from the fetched copy, Update with it.
Returns the outcome and the trace of store calls. -/
def releaseConfigMap (cmOpt : Option ConfigMap) (c : KubeClient) :
    Except KErr Unit × List StoreOp :=
  match cmOpt with
  | none => (.ok (), [])
  | some cm =>
    let getOp := StoreOp.getConfigMap cm.metadata.namespc cm.metadata.name
    match c.getConfigMap cm.metadata.namespc cm.metadata.name with
    | .error e => (.error e, [getOp])
    | .ok fetched =>
      let cm1 := removeFinalizerCM fetched
      match c.updateConfigMap cm1 with
      | .error e => (.error e, [getOp, .updateConfigMap cm1])
      | .ok _ => (.ok (), [getOp, .updateConfigMap cm1])

/-- Embeds `releaseSecret`: same fetch-unset-write shape. -/
def releaseSecret (secOpt : Option Secret) (c : KubeClient) :
    Except KErr Unit × List StoreOp :=
  match secOpt with
  | none => (.ok (), [])
  | some sec =>
    let getOp := StoreOp.getSecret sec.metadata.namespc sec.metadata.name
    match c.getSecret sec.metadata.namespc sec.metadata.name with
    | .error e => (.error e, [getOp])
    | .ok fetched =>
      let s1 := removeFinalizerSecret fetched
      match c.updateSecret s1 with
      | .error e => (.error e, [getOp, .updateSecret s1])
      | .ok _ => (.ok (), [getOp, .updateSecret s1])

/-- Embeds `releaseOBC`: fetch-unset-write on the claim; Get/Update errors
come back wrapped in `fmt.Errorf` context. -/
def releaseOBC (obcOpt : Option ObjectBucketClaim) (c : ObClient) :
    Except KErr Unit × List StoreOp :=
  match obcOpt with
  | none => (.ok (), [])
  | some obc =>
    let getOp := StoreOp.getOBC obc.metadata.namespc obc.metadata.name
    match c.getOBC obc.metadata.namespc obc.metadata.name with
    | .error e => (.error (.wrapped "unable to Get obc in order to remove finalizer" e), [getOp])
    | .ok fetched =>
      let o1 := removeFinalizerOBC fetched
      match c.updateOBC o1 with
      | .error e =>
        (.error (.wrapped "unable to Update obc to reflect removed finalizer" e),
         [getOp, .updateOBC o1])
      | .ok _ => (.ok (), [getOp, .updateOBC o1])

/-- Embeds `deleteObjectBucket`: nil is a no-op; otherwise the finalizer is
removed from the caller's own copy (no Get), that copy is written back with
Update, and the bucket is then explicitly deleted by the updated object's
name; `IsNotFound` on the delete is swallowed as success. -/
def deleteObjectBucket (obOpt : Option ObjectBucket) (c : ObClient) :
    Except KErr Unit × List StoreOp :=
  match obOpt with
  | none => (.ok (), [])
  | some ob =>
    let ob1 := removeFinalizerOB ob
    match c.updateOB ob1 with
    | .error e => (.error e, [.updateOB ob1])
    | .ok ob2 =>
      let trace := [StoreOp.updateOB ob1, StoreOp.deleteOB ob2.metadata.name]
      match c.deleteOB ob2.metadata.name with
      | .error e =>
        if e.isNotFound then (.ok (), trace)
        else (.error (.wrapped "error deleting ObjectBucket" e), trace)
      | .ok _ => (.ok (), trace)

/-- The poll body shared by `updateObjectBucketClaimPhase`'s loop: each
attempt calls `UpdateStatus(obc)` and runs `return (err == nil), err`, so
the first attempt always ends the poll — success on a nil error, abort
with the error otherwise.  `resp i sent` is the store's response to the
i-th `UpdateStatus` call with payload `sent`. -/
def updateOBCStatusAttempts (resp : Nat → ObjectBucketClaim → Except KErr ObjectBucketClaim)
    (obc : ObjectBucketClaim) : Nat → Nat → Except KErr ObjectBucketClaim
  | 0, _ => .error .waitTimeout
  | _ + 1, i =>
    match resp i obc with
    | .ok r => .ok r
    | .error e => .error e

/-- Embeds `updateObjectBucketClaimPhase`: the phase is assigned to the
caller's claim object *before* the store is contacted (Go mutates through
the pointer); the mutated input is returned alongside the poll outcome to
model what the caller's object holds afterwards. -/
def updateObjectBucketClaimPhase (resp : Nat → ObjectBucketClaim → Except KErr ObjectBucketClaim)
    (obc : ObjectBucketClaim) (phase : String) (fuel : Nat) :
    Except KErr ObjectBucketClaim × ObjectBucketClaim :=
  let obc1 := { obc with status := { phase := phase } }
  (updateOBCStatusAttempts resp obc1 (fuel + 1) 0, obc1)

/-- The poll body of `updateObjectBucketPhase`'s loop; same shape as the
claim variant. -/
def updateOBStatusAttempts (resp : Nat → ObjectBucket → Except KErr ObjectBucket)
    (ob : ObjectBucket) : Nat → Nat → Except KErr ObjectBucket
  | 0, _ => .error .waitTimeout
  | _ + 1, i =>
    match resp i ob with
    | .ok r => .ok r
    | .error e => .error e

/-- Embeds `updateObjectBucketPhase`; see `updateObjectBucketClaimPhase`. -/
def updateObjectBucketPhase (resp : Nat → ObjectBucket → Except KErr ObjectBucket)
    (ob : ObjectBucket) (phase : String) (fuel : Nat) :
    Except KErr ObjectBucket × ObjectBucket :=
  let ob1 := { ob with status := { phase := phase } }
  (updateOBStatusAttempts resp ob1 (fuel + 1) 0, ob1)

end provisioner

namespace util

/-- `Finalizer = DomainPrefix + "/finalizer"` with
`DomainPrefix = "objectbucket.io"` (the constant is inlined here because
its Go name cannot be used verbatim in this file). -/
def Finalizer : String := "objectbucket.io" ++ "/finalizer"

def BucketName : String := "BUCKET_NAME"
def BucketHost : String := "BUCKET_HOST"
def BucketPort : String := "BUCKET_PORT"
def BucketRegion : String := "BUCKET_REGION"
def BucketSubRegion : String := "BUCKET_SUBREGION"
def BucketURL : String := "BUCKET_URL"
def BucketSSL : String := "BUCKET_SSL"

/-- Embeds `NewCredentialsSecret` (package `util`): nil checks, then a
Secret with the finalizer but *no* owner reference, and
`StringData := auth.ToMap()` (an empty map only logs a warning). -/
def NewCredentialsSecret (obc : Option ObjectBucketClaim) (auth : Option Authentication) :
    Except KErr Secret :=
  match obc with
  | none => .error (.invalidInput "ObjectBucketClaim required to generate secret")
  | some obc =>
    match auth with
    | none => .error (.invalidInput "ObjectBucket required to generate secret")
    | some auth =>
      .ok {
        metadata := {
          name := obc.metadata.name
          namespc := obc.metadata.namespc
          finalizers := [Finalizer]
          ownerReferences := [] }
        stringData := auth.toMap }

/-- Splits a character list at `/`: the path elements Go's `path.Clean`
processes. -/
def splitSlashChars : List Char → List (List Char)
  | [] => [[]]
  | c :: cs =>
    let rest := splitSlashChars cs
    if c = '/' then [] :: rest
    else
      match rest with
      | r :: rs => (c :: r) :: rs
      | [] => [[c]]

def splitSlash (s : String) : List String :=
  (splitSlashChars s.data).map (fun l => String.mk l)

/-- One step of `path.Clean`'s lexical algorithm, processing one
`/`-separated element against the stack of output elements (held in
reverse): empty and `.` elements are dropped; `..` pops the preceding
element, is dropped at the root of a rooted path, and is kept when a
relative path has nothing left to pop. -/
def cleanStep (rooted : Bool) (acc : List String) (p : String) : List String :=
  if p = "" ∨ p = "." then acc
  else if p = ".." then
    match acc with
    | [] => if rooted then [] else [".."]
    | top :: tl => if top = ".." then p :: acc else tl
  else p :: acc

/-- Joins path elements with `/`. -/
def joinParts : List String → String
  | [] => ""
  | [a] => a
  | a :: b :: rest => a ++ "/" ++ joinParts (b :: rest)

/-- Embeds Go's `path.Join`: an all-empty input yields `""`; otherwise the
elements (Join's buffer loop skips the leading empty ones) are joined with
`/` and `path.Clean` is applied.  The model works on the `/`-separated
elements of the joined string — the concatenation of the elements' own
splits — so a rooted path shows as an empty leading element, `Clean`'s
lexical rules run via `cleanStep`, and an empty output stack corresponds
to `Clean`'s empty buffer (`/` when rooted, `.` otherwise). -/
def pathJoin (elems : List String) : String :=
  let elemsTail := elems.dropWhile (fun e => e = "")
  match elemsTail with
  | [] => ""
  | _ :: _ =>
    let parts := (elemsTail.map splitSlash).flatten
    let rooted := match parts with
      | p :: _ => p == ""
      | [] => false
    let cleaned := (parts.foldl (cleanStep rooted) []).reverse
    match cleaned with
    | [] => if rooted then "/" else "."
    | ps => if rooted then "/" ++ joinParts ps else joinParts ps

/-- A plain path element: a non-empty single segment (no `/`) that is
neither `.` nor `..` — on such segments `path.Join` is plain
slash-joining. -/
abbrev plainSegment (s : String) : Prop :=
  splitSlash s = [s] ∧ s ≠ "" ∧ s ≠ "." ∧ s ≠ ".."

/-- The behaviour of the net/url round-trip `url.Parse` followed by
`URL.String()` on a composed URL string: `none` is a parse failure (Go's
malformed-URL branch), `some t` the re-serialized URL.  The full net/url
grammar is outside this embedding, so the round-trip is a parameter of the
builder, exactly like the store's responses; theorems constrain it only on
the composed string at hand, where Go's behaviour is unambiguous: on
URL-simple strings — `scheme://host[:port]/path` over alphanumerics,
`-`, `_`, `.`, `~` and the structural `:` and `/` — `url.Parse` succeeds
and `URL.String()` returns the string unchanged. -/
def UrlRoundtrip : Type := String → Option String

/-- The string `NewBucketConfigMap` hands to `url.Parse`:
`fmt.Sprintf("%s/%s", host, bucketPath)`, with the scheme chosen by the
*claim's* SSL flag, the `:port` segment appended only when
`ep.BucketPort > 0`, and `bucketPath = path.Join(Region, SubRegion,
BucketName)`. -/
def composedBucketURL (ep : Endpoint) (obc : ObjectBucketClaim) : String :=
  let host0 := (if obc.spec.ssl then "https://" else "http://") ++ ep.bucketHost
  let host := if ep.bucketPort > 0 then host0 ++ ":" ++ toString ep.bucketPort else host0
  host ++ "/" ++ pathJoin [ep.region, ep.subRegion, ep.bucketName]

/-- Embeds `NewBucketConfigMap` (package `util`): nil checks, then the
composed URL string (see `composedBucketURL`) goes through the net/url
round-trip `urlRT`, whose failure is the malformed-URL error (whose
message quotes `bucketPath`, as in the source).  The produced ConfigMap
has no finalizer and no owner reference; its data adds `BUCKET_URL` to the
six plain keys, with `BUCKET_NAME` drawn from the *claim's* spec and
`BUCKET_SSL` from the *endpoint*. -/
def NewBucketConfigMap (urlRT : UrlRoundtrip) (ep : Option Endpoint)
    (obc : Option ObjectBucketClaim) : Except KErr ConfigMap :=
  match ep, obc with
  | none, _ => .error (.invalidInput "v1alpha1.Endpoint and v1alpha1.ObjectbucketClaim cannot be nil")
  | _, none => .error (.invalidInput "v1alpha1.Endpoint and v1alpha1.ObjectbucketClaim cannot be nil")
  | some ep, some obc =>
    match urlRT (composedBucketURL ep obc) with
    | none =>
      .error (.invalidInput ("malformed bucket url "
        ++ pathJoin [ep.region, ep.subRegion, ep.bucketName]))
    | some bucketURL =>
      .ok {
        metadata := {
          name := obc.metadata.name
          namespc := obc.metadata.namespc
          finalizers := []
          ownerReferences := [] }
        data := [
          (BucketName, obc.spec.bucketName),
          (BucketHost, ep.bucketHost),
          (BucketPort, toString ep.bucketPort),
          (BucketSSL, formatBool ep.ssl),
          (BucketRegion, ep.region),
          (BucketSubRegion, ep.subRegion),
          (BucketURL, bucketURL)] }

/-- The poll body of `CreateUntilDefaultTimeout`: each attempt calls
`c.Create(ctx, obj)` (`resp i` is the store's response to the i-th call);
an error that is not `IsAlreadyExists` is returned as `(false, err)`,
which makes `wait.PollImmediate` abort the poll with it; nil or
already-exists errors end the poll as success. -/
def createUntilTimeoutAttempts (resp : Nat → Option KErr) :
    Nat → Nat → Option KErr
  | 0, _ => some .waitTimeout
  | _ + 1, i =>
    match resp i with
    | none => none
    | some e => if e.isAlreadyExists then none else some e

/-- Embeds `CreateUntilDefaultTimeout`: a nil client fails immediately,
otherwise poll with an immediate first attempt. -/
def CreateUntilDefaultTimeout (hasClient : Bool) (resp : Nat → Option KErr)
    (fuel : Nat) : Option KErr :=
  if hasClient then createUntilTimeoutAttempts resp (fuel + 1) 0
  else some (.invalidInput "error creating object, nil client")

/-- Modelled from the spec: the `v1alpha1.ReclaimPolicy` constants are not
under `src/`; the spec's case-insensitive acceptance of `Delete`/`Retain`
("accepts a case-insensitive string, returns one of Delete/Retain") forces
the constant values to equal their own lowercasing, i.e. the lowercase
strings, since `TranslateReclaimPolicy` compares them against the
lowercased input. -/
def ReclaimPolicyDelete : String := "delete"

/-- Modelled from the spec: see `ReclaimPolicyDelete`. -/
def ReclaimPolicyRetain : String := "retain"

/-- Embeds `TranslateReclaimPolicy`: lowercase the input
(`strings.ToLower` becomes `String.toLower`), switch on the two policy
constants, otherwise fail with the unrecognized-policy error. -/
def TranslateReclaimPolicy (rp : String) : Except KErr String :=
  let lowered := strToLower rp
  if lowered = ReclaimPolicyDelete then .ok ReclaimPolicyDelete
  else if lowered = ReclaimPolicyRetain then .ok ReclaimPolicyRetain
  else .error (.invalidInput ("unrecognized reclaim policy " ++ rp))

end util

/-! Concrete inputs used by the spec's scenario and by witnesses and
counterexamples. -/

/-- The spec's scenario claim `{ns: "ns1", name: "c1", ssl: true}`; its
declared bucket name is deliberately different from the endpoint's. -/
def obcScenario : ObjectBucketClaim :=
  { metadata := { name := "c1", namespc := "ns1", finalizers := [], ownerReferences := [] }
    spec := { storageClassName := "sc", bucketName := "claim-bucket", ssl := true }
    status := { phase := "" } }

/-- The spec's scenario endpoint `{host: "s3.example.com", port: 0,
region: "us", subRegion: "east", bucketName: "b1"}`; its SSL flag is
deliberately different from the claim's. -/
def epScenario : Endpoint :=
  { bucketHost := "s3.example.com", bucketPort := 0, bucketName := "b1"
    region := "us", subRegion := "east", ssl := false }

def authDemo : Authentication := { toMap := [("AWS_ACCESS_KEY_ID", "id"), ("AWS_SECRET_ACCESS_KEY", "key")] }

/-- The identity net/url round-trip: Go's actual behaviour on every
URL-simple string, in particular on every composed URL appearing in a
concrete statement below. -/
def urlRoundtripId : util.UrlRoundtrip := fun s => some s

/-- The scenario endpoint with the degenerate region `.`: a non-empty
segment that `path.Join`'s `Clean` nevertheless eliminates. -/
def epDot : Endpoint := { epScenario with region := "." }

/-- A caller-held ConfigMap reference (only namespace/name matter to the
release path). -/
def cmRefDemo : ConfigMap :=
  { metadata := { name := "c1", namespc := "ns1", finalizers := [], ownerReferences := [] }
    data := [] }

/-- The store's current version of that ConfigMap. -/
def cmStoreDemo : ConfigMap :=
  { metadata := { name := "c1", namespc := "ns1"
                  finalizers := [provisioner.finalizer, "example.io/keep"]
                  ownerReferences := [] }
    data := [("k", "v")] }

def secRefDemo : Secret :=
  { metadata := { name := "c1", namespc := "ns1", finalizers := [], ownerReferences := [] }
    stringData := [] }

def secStoreDemo : Secret :=
  { metadata := { name := "c1", namespc := "ns1"
                  finalizers := [provisioner.finalizer]
                  ownerReferences := [] }
    stringData := [] }

def obcStoreDemo : ObjectBucketClaim :=
  { obcScenario with metadata := { obcScenario.metadata with finalizers := [provisioner.finalizer] } }

/-- A caller-held ObjectBucket whose finalizer set still holds the token
(plus a foreign token, to make finalizer removal visible). -/
def obDemo : ObjectBucket :=
  { metadata := { name := "obc-ns1-c1", namespc := ""
                  finalizers := [provisioner.finalizer, "example.io/keep"]
                  ownerReferences := [] }
    status := { phase := "Bound" } }

/-- A store in which every fetch succeeds with the store's own version and
every write succeeds echoing its argument. -/
def kubeClientDemo : provisioner.KubeClient :=
  { getConfigMap := fun _ _ => .ok cmStoreDemo
    updateConfigMap := fun c => .ok c
    getSecret := fun _ _ => .ok secStoreDemo
    updateSecret := fun s => .ok s }

def obClientDemo : provisioner.ObClient :=
  { getOBC := fun _ _ => .ok obcStoreDemo
    updateOBC := fun o => .ok o
    updateOB := fun o => .ok o
    deleteOB := fun _ => .ok () }

/-- A store whose explicit bucket delete reports `NotFound` (a concurrent
deletion already removed the object). -/
def obClientGoneDemo : provisioner.ObClient :=
  { getOBC := fun _ _ => .error .notFound
    updateOBC := fun o => .ok o
    updateOB := fun o => .ok o
    deleteOB := fun _ => .error .notFound }

/-- `Except.ok`-ness, to state that a result is or is not an error. -/
def isOkE {α : Type} : Except KErr α → Bool
  | .ok _ => true
  | .error _ => false

/-!  Theorems  -/

/-- Claim C1 (code-bug evidence): the claim says every create path retries
any non-already-exists store error at the fixed interval until the
deadline.  The Secret/ConfigMap polls do (third conjunct: a transient
error on the first attempt is followed by a successful retry), but both
Bucket create paths hand the error to `wait.PollImmediate`, which aborts
the poll at once: with a transient error on the first attempt they return
that error immediately, for *every* remaining budget `fuel`, and the
timeout outcome is unreachable — contradicting the in-code comment
"probably not fatal, retrying". -/
theorem c1_bucket_create_aborts_on_transient_error (m : String) (fuel : Nat) (s : Secret) :
    provisioner.createObjectBucket (fun _ => .error (.transientE m)) fuel
      = .error (.transientE m)
    ∧ util.CreateUntilDefaultTimeout true (fun _ => some (.transientE m)) fuel
      = some (.transientE m)
    ∧ provisioner.createSecretAttempts
        (fun i => if i == 0 then .error (.transientE m) else .ok s) (fuel + 2) 0
      = .ok s := by
  refine ⟨?_, ?_, ?_⟩ <;>
    simp [provisioner.createObjectBucket, provisioner.createObjectBucketAttempts,
      util.CreateUntilDefaultTimeout, util.createUntilTimeoutAttempts,
      provisioner.createSecretAttempts, KErr.isAlreadyExists]

/-- Claim C7 (code-bug evidence): the claim says the phase updaters retry
transient store errors until the deadline and only then fail with
`PhaseUpdateTimeout`.  In the code the poll condition returns
`(err == nil), err`, so the first failing `UpdateStatus` aborts
`wait.PollImmediate`: with a transient error the call returns that error
immediately for every budget `fuel`, and the timeout outcome is
unreachable. -/
theorem c7_phase_update_aborts_on_first_error (m : String) (obc : ObjectBucketClaim)
    (ob : ObjectBucket) (phase : String) (fuel : Nat) :
    (provisioner.updateObjectBucketClaimPhase (fun _ _ => .error (.transientE m)) obc phase fuel).1
      = .error (.transientE m)
    ∧ (provisioner.updateObjectBucketPhase (fun _ _ => .error (.transientE m)) ob phase fuel).1
      = .error (.transientE m) := by
  constructor <;>
    simp [provisioner.updateObjectBucketClaimPhase, provisioner.updateOBCStatusAttempts,
      provisioner.updateObjectBucketPhase, provisioner.updateOBStatusAttempts]

/-- Claim C3 (counterexample): with a store that reports already-exists on
the first ConfigMap create, the executor's result is an *error* value
(`KErr.alreadyExists`), not a success carrying a separate signal, so the
claim's "returns success together with an already existed signal (not an
error)" is false as stated. -/
theorem c3_counterexample :
    isOkE (provisioner.createConfigMap (some obcScenario) (some epScenario)
        (fun _ => .error .alreadyExists) 9) = false
    ∧ provisioner.createConfigMap (some obcScenario) (some epScenario)
        (fun _ => .error .alreadyExists) 9 = .error .alreadyExists := by
  constructor <;> rfl

/-- Claim C3 (amended): when the store reports already-exists on the first
attempt, the Secret and ConfigMap create polls stop immediately and return
the store's `AlreadyExists` error itself to the caller as the
"already existed" signal, while the Bucket create poll swallows the
outcome and returns plain success with no signal. -/
theorem c3_already_exists_signal (respCM : Nat → Except KErr ConfigMap)
    (respS : Nat → Except KErr Secret) (respOB : Nat → Except KErr ObjectBucket) (fuel : Nat)
    (hCM : respCM 0 = .error .alreadyExists) (hS : respS 0 = .error .alreadyExists)
    (hOB : respOB 0 = .error .alreadyExists) :
    provisioner.createConfigMapAttempts respCM (fuel + 1) 0 = .error .alreadyExists
    ∧ provisioner.createSecretAttempts respS (fuel + 1) 0 = .error .alreadyExists
    ∧ provisioner.createObjectBucketAttempts respOB (fuel + 1) 0 = .ok none := by
  refine ⟨?_, ?_, ?_⟩ <;>
    simp [provisioner.createConfigMapAttempts, provisioner.createSecretAttempts,
      provisioner.createObjectBucketAttempts, hCM, hS, hOB, KErr.isAlreadyExists]

/-- Witness for `c3_already_exists_signal` at a store that always reports
already-exists, with a budget of five attempts. -/
theorem c3_already_exists_signal_witness :
    provisioner.createConfigMapAttempts (fun _ => .error .alreadyExists) (4 + 1) 0
      = .error .alreadyExists
    ∧ provisioner.createSecretAttempts (fun _ => .error .alreadyExists) (4 + 1) 0
      = .error .alreadyExists
    ∧ provisioner.createObjectBucketAttempts (fun _ => .error .alreadyExists) (4 + 1) 0
      = .ok none :=
  c3_already_exists_signal (fun _ => .error .alreadyExists) (fun _ => .error .alreadyExists)
    (fun _ => .error .alreadyExists) 4 rfl rfl rfl

/-- Claim C4 (counterexample): the `util` package's `NewBucketConfigMap`
is one of the cited synthesizer functions, yet at the scenario inputs the
ConfigMap it produces carries zero finalizer tokens and zero owner
references — not exactly one of each. -/
theorem c4_counterexample :
    (util.NewBucketConfigMap urlRoundtripId (some epScenario) (some obcScenario)).map
        (fun cm => (cm.metadata.finalizers.length, cm.metadata.ownerReferences.length))
      = .ok (0, 0) := by
  rfl

/-- Claim C4 (amended): the package-`provisioner` synthesizers give every
Secret and ConfigMap exactly one finalizer token and exactly one owner
reference to the originating claim, while the `util`-package variants do
not: `util.NewCredentialsSecret` carries the finalizer but no owner
reference, and `util.NewBucketConfigMap`, whenever the net/url round-trip
lets it produce a ConfigMap at all, carries neither. -/
theorem c4_finalizer_and_owner (ep : Endpoint) (obc : ObjectBucketClaim) (auth : Authentication)
    (urlRT : util.UrlRoundtrip) (u : String)
    (hurl : urlRT (util.composedBucketURL ep obc) = some u) :
    (provisioner.newBucketConfigMap (some ep) (some obc)).map
        (fun cm => (cm.metadata.finalizers, cm.metadata.ownerReferences))
      = .ok ([provisioner.finalizer], [makeOwnerReference obc])
    ∧ (provisioner.newCredentialsSecret (some obc) (some auth)).map
        (fun s => (s.metadata.finalizers, s.metadata.ownerReferences))
      = .ok ([provisioner.finalizer], [makeOwnerReference obc])
    ∧ (util.NewCredentialsSecret (some obc) (some auth)).map
        (fun s => (s.metadata.finalizers, s.metadata.ownerReferences))
      = .ok ([util.Finalizer], [])
    ∧ (util.NewBucketConfigMap urlRT (some ep) (some obc)).map
        (fun cm => (cm.metadata.finalizers, cm.metadata.ownerReferences))
      = .ok ([], []) := by
  refine ⟨rfl, rfl, rfl, ?_⟩
  simp [util.NewBucketConfigMap, hurl, Except.map]

/-- Witness for `c4_finalizer_and_owner` at the scenario inputs under the
identity round-trip. -/
theorem c4_finalizer_and_owner_witness :
    (urlRoundtripId (util.composedBucketURL epScenario obcScenario)
        = some (util.composedBucketURL epScenario obcScenario))
    ∧ ((provisioner.newBucketConfigMap (some epScenario) (some obcScenario)).map
          (fun cm => (cm.metadata.finalizers, cm.metadata.ownerReferences))
        = .ok ([provisioner.finalizer], [makeOwnerReference obcScenario])
      ∧ (provisioner.newCredentialsSecret (some obcScenario) (some authDemo)).map
          (fun s => (s.metadata.finalizers, s.metadata.ownerReferences))
        = .ok ([provisioner.finalizer], [makeOwnerReference obcScenario])
      ∧ (util.NewCredentialsSecret (some obcScenario) (some authDemo)).map
          (fun s => (s.metadata.finalizers, s.metadata.ownerReferences))
        = .ok ([util.Finalizer], [])
      ∧ (util.NewBucketConfigMap urlRoundtripId (some epScenario) (some obcScenario)).map
          (fun cm => (cm.metadata.finalizers, cm.metadata.ownerReferences))
        = .ok ([], [])) :=
  ⟨rfl,
   c4_finalizer_and_owner epScenario obcScenario authDemo urlRoundtripId
     (util.composedBucketURL epScenario obcScenario) rfl⟩

/-- Claim C8: `TranslateReclaimPolicy` accepts its input up to letter case
(equal lowercasings): any case variant of `Delete` or `Retain` yields the
corresponding policy value without error, and every other input fails with
the unrecognized-policy error. -/
theorem c8_translate_reclaim_policy (s : String) :
    (strToLower s = strToLower "Delete" →
        util.TranslateReclaimPolicy s = .ok util.ReclaimPolicyDelete)
    ∧ (strToLower s = strToLower "Retain" →
        util.TranslateReclaimPolicy s = .ok util.ReclaimPolicyRetain)
    ∧ (strToLower s ≠ strToLower "Delete" → strToLower s ≠ strToLower "Retain" →
        util.TranslateReclaimPolicy s
          = .error (.invalidInput ("unrecognized reclaim policy " ++ s))) := by
  have hd : strToLower "Delete" = "delete" := by decide
  have hr : strToLower "Retain" = "retain" := by decide
  rw [hd, hr]
  refine ⟨fun h => ?_, fun h => ?_, fun h1 h2 => ?_⟩
  · simp [util.TranslateReclaimPolicy, util.ReclaimPolicyDelete, util.ReclaimPolicyRetain, h]
  · simp [util.TranslateReclaimPolicy, util.ReclaimPolicyDelete, util.ReclaimPolicyRetain, h]
  · simp [util.TranslateReclaimPolicy, util.ReclaimPolicyDelete, util.ReclaimPolicyRetain,
      h1, h2]

/-- Witness for `c8_translate_reclaim_policy` at `"DELETE"`, `"ReTaIn"`
and `"foo"`. -/
theorem c8_translate_reclaim_policy_witness :
    util.TranslateReclaimPolicy "DELETE" = .ok util.ReclaimPolicyDelete
    ∧ util.TranslateReclaimPolicy "ReTaIn" = .ok util.ReclaimPolicyRetain
    ∧ util.TranslateReclaimPolicy "foo"
        = .error (.invalidInput ("unrecognized reclaim policy " ++ "foo")) :=
  ⟨(c8_translate_reclaim_policy "DELETE").1 (by decide),
   (c8_translate_reclaim_policy "ReTaIn").2.1 (by decide),
   (c8_translate_reclaim_policy "foo").2.2 (by decide) (by decide)⟩

/-- Claim C9: both phase updaters assign the new phase to the caller's
in-memory object before contacting the store — the second component of the
model's result is the caller's object after the call — so even when the
store fails the update with a transient error, the call returns that error
while the caller's object already carries the new phase; nothing rolls the
mutation back. -/
theorem c9_phase_mutation_not_rolled_back
    (resp : Nat → ObjectBucketClaim → Except KErr ObjectBucketClaim)
    (respB : Nat → ObjectBucket → Except KErr ObjectBucket)
    (obc : ObjectBucketClaim) (ob : ObjectBucket) (phase phaseB m : String) (fuel : Nat) :
    ((provisioner.updateObjectBucketClaimPhase resp obc phase fuel).2).status.phase = phase
    ∧ ((provisioner.updateObjectBucketPhase respB ob phaseB fuel).2).status.phase = phaseB
    ∧ provisioner.updateObjectBucketClaimPhase (fun _ _ => .error (.transientE m)) obc phase fuel
      = (.error (.transientE m), { obc with status := { phase := phase } })
    ∧ provisioner.updateObjectBucketPhase (fun _ _ => .error (.transientE m)) ob phaseB fuel
      = (.error (.transientE m), { ob with status := { phase := phaseB } }) := by
  refine ⟨rfl, rfl, ?_, ?_⟩ <;>
    simp [provisioner.updateObjectBucketClaimPhase, provisioner.updateOBCStatusAttempts,
      provisioner.updateObjectBucketPhase, provisioner.updateOBStatusAttempts]

/-- Claim C5 (counterexample): the Bucket release path issues no fetch at
all — at a concrete store its full call trace is exactly one Update (with
the finalizer removed from the *caller's* copy) followed by one Delete, so
the claim that every release function first fetches the latest version and
writes back only freshly-fetched objects is false. -/
theorem c5_counterexample :
    (provisioner.deleteObjectBucket (some obDemo) obClientDemo).2
      = [.updateOB (provisioner.removeFinalizerOB obDemo), .deleteOB "obc-ns1-c1"]
    ∧ ((provisioner.deleteObjectBucket (some obDemo) obClientDemo).2.all
        (fun op => !op.isGet)) = true := by
  constructor <;> rfl

/-- Claim C5 (amended): the ConfigMap, Secret, and Claim release functions
fetch the latest version from the store and write back the *fetched* copy
with its finalizer removed; the Bucket release function performs no fetch
— it writes back the caller-supplied object with the finalizer removed and
then deletes by name. -/
theorem c5_release_fetch_semantics (kc : provisioner.KubeClient) (oc : provisioner.ObClient)
    (cm fcm : ConfigMap) (sec fsec : Secret) (obc fobc : ObjectBucketClaim) (ob : ObjectBucket)
    (hcm : kc.getConfigMap cm.metadata.namespc cm.metadata.name = .ok fcm)
    (hsec : kc.getSecret sec.metadata.namespc sec.metadata.name = .ok fsec)
    (hobc : oc.getOBC obc.metadata.namespc obc.metadata.name = .ok fobc) :
    (provisioner.releaseConfigMap (some cm) kc).2
      = [.getConfigMap cm.metadata.namespc cm.metadata.name,
         .updateConfigMap (provisioner.removeFinalizerCM fcm)]
    ∧ (provisioner.releaseSecret (some sec) kc).2
      = [.getSecret sec.metadata.namespc sec.metadata.name,
         .updateSecret (provisioner.removeFinalizerSecret fsec)]
    ∧ (provisioner.releaseOBC (some obc) oc).2
      = [.getOBC obc.metadata.namespc obc.metadata.name,
         .updateOBC (provisioner.removeFinalizerOBC fobc)]
    ∧ (provisioner.deleteObjectBucket (some ob) oc).2.head?
      = some (.updateOB (provisioner.removeFinalizerOB ob))
    ∧ ((provisioner.deleteObjectBucket (some ob) oc).2.all (fun op => !op.isGet)) = true := by
  refine ⟨?_, ?_, ?_, ?_, ?_⟩
  · simp only [provisioner.releaseConfigMap, hcm]
    cases kc.updateConfigMap (provisioner.removeFinalizerCM fcm) <;> rfl
  · simp only [provisioner.releaseSecret, hsec]
    cases kc.updateSecret (provisioner.removeFinalizerSecret fsec) <;> rfl
  · simp only [provisioner.releaseOBC, hobc]
    cases oc.updateOBC (provisioner.removeFinalizerOBC fobc) <;> rfl
  · simp only [provisioner.deleteObjectBucket]
    cases h1 : oc.updateOB (provisioner.removeFinalizerOB ob) with
    | error e => simp [h1]
    | ok ob2 =>
      simp only [h1]
      cases h2 : oc.deleteOB ob2.metadata.name with
      | error e =>
        simp only [h2]
        split <;> rfl
      | ok u => simp [h2]
  · simp only [provisioner.deleteObjectBucket]
    cases h1 : oc.updateOB (provisioner.removeFinalizerOB ob) with
    | error e => simp [h1, provisioner.StoreOp.isGet]
    | ok ob2 =>
      simp only [h1]
      cases h2 : oc.deleteOB ob2.metadata.name with
      | error e =>
        simp only [h2]
        split <;> rfl
      | ok u => simp [h2, provisioner.StoreOp.isGet]

/-- Witness for `c5_release_fetch_semantics` at the demo store, whose
fetches return the store's own (different) versions of the objects. -/
theorem c5_release_fetch_semantics_witness :
    (kubeClientDemo.getConfigMap cmRefDemo.metadata.namespc cmRefDemo.metadata.name
        = .ok cmStoreDemo
      ∧ kubeClientDemo.getSecret secRefDemo.metadata.namespc secRefDemo.metadata.name
        = .ok secStoreDemo
      ∧ obClientDemo.getOBC obcScenario.metadata.namespc obcScenario.metadata.name
        = .ok obcStoreDemo)
    ∧ ((provisioner.releaseConfigMap (some cmRefDemo) kubeClientDemo).2
        = [.getConfigMap cmRefDemo.metadata.namespc cmRefDemo.metadata.name,
           .updateConfigMap (provisioner.removeFinalizerCM cmStoreDemo)]
      ∧ (provisioner.releaseSecret (some secRefDemo) kubeClientDemo).2
        = [.getSecret secRefDemo.metadata.namespc secRefDemo.metadata.name,
           .updateSecret (provisioner.removeFinalizerSecret secStoreDemo)]
      ∧ (provisioner.releaseOBC (some obcScenario) obClientDemo).2
        = [.getOBC obcScenario.metadata.namespc obcScenario.metadata.name,
           .updateOBC (provisioner.removeFinalizerOBC obcStoreDemo)]
      ∧ (provisioner.deleteObjectBucket (some obDemo) obClientDemo).2.head?
        = some (.updateOB (provisioner.removeFinalizerOB obDemo))
      ∧ ((provisioner.deleteObjectBucket (some obDemo) obClientDemo).2.all
          (fun op => !op.isGet)) = true) :=
  ⟨⟨rfl, rfl, rfl⟩,
   c5_release_fetch_semantics kubeClientDemo obClientDemo cmRefDemo cmStoreDemo secRefDemo
     secStoreDemo obcScenario obcStoreDemo obDemo rfl rfl rfl⟩

/-- Claim C6: release treats absence as success — each of the four release
functions maps a nil input to success with an empty call trace, and the
Bucket release returns success when the explicit delete after finalizer
removal reports `NotFound`. -/
theorem c6_absence_is_success (kc : provisioner.KubeClient) (oc : provisioner.ObClient)
    (ob ob2 : ObjectBucket)
    (hu : oc.updateOB (provisioner.removeFinalizerOB ob) = .ok ob2)
    (hd : oc.deleteOB ob2.metadata.name = .error .notFound) :
    provisioner.releaseConfigMap none kc = (.ok (), [])
    ∧ provisioner.releaseSecret none kc = (.ok (), [])
    ∧ provisioner.releaseOBC none oc = (.ok (), [])
    ∧ provisioner.deleteObjectBucket none oc = (.ok (), [])
    ∧ (provisioner.deleteObjectBucket (some ob) oc).1 = .ok () := by
  refine ⟨rfl, rfl, rfl, rfl, ?_⟩
  simp [provisioner.deleteObjectBucket, hu, hd, KErr.isNotFound]

/-- Witness for `c6_absence_is_success` at a store whose explicit bucket
delete reports `NotFound`. -/
theorem c6_absence_is_success_witness :
    (obClientGoneDemo.updateOB (provisioner.removeFinalizerOB obDemo)
        = .ok (provisioner.removeFinalizerOB obDemo)
      ∧ obClientGoneDemo.deleteOB (provisioner.removeFinalizerOB obDemo).metadata.name
        = .error .notFound)
    ∧ (provisioner.releaseConfigMap none kubeClientDemo = (.ok (), [])
      ∧ provisioner.releaseSecret none kubeClientDemo = (.ok (), [])
      ∧ provisioner.releaseOBC none obClientGoneDemo = (.ok (), [])
      ∧ provisioner.deleteObjectBucket none obClientGoneDemo = (.ok (), [])
      ∧ (provisioner.deleteObjectBucket (some obDemo) obClientGoneDemo).1 = .ok ()) :=
  ⟨⟨rfl, rfl⟩,
   c6_absence_is_success kubeClientDemo obClientGoneDemo obDemo
     (provisioner.removeFinalizerOB obDemo) rfl rfl⟩

/-- Helper: on plain segments `path.Join` is plain slash-joining. -/
theorem pathJoin_plain (a b c : String)
    (ha : util.plainSegment a) (hb : util.plainSegment b) (hc : util.plainSegment c) :
    util.pathJoin [a, b, c] = a ++ "/" ++ (b ++ "/" ++ c) := by
  obtain ⟨ha1, ha2, ha3, ha4⟩ := ha
  obtain ⟨hb1, hb2, hb3, hb4⟩ := hb
  obtain ⟨hc1, hc2, hc3, hc4⟩ := hc
  simp [util.pathJoin, List.dropWhile, ha1, ha2, ha3, ha4, hb1, hb2, hb3, hb4,
    hc1, hc2, hc3, hc4, util.cleanStep, util.joinParts]

/-- Claim C2 (counterexample): the claimed URL template fails on a
ConfigMap the builder does produce.  With the non-empty region `.` and the
scenario's other fields, `path.Join`'s `Clean` eliminates the region
segment, so `BUCKET_URL` is `https://s3.example.com/east/b1` and not the
claimed `scheme://host/region/subregion/bucketName` form, which here would
read `https://s3.example.com/./east/b1` (the net/url round-trip is the
identity on both strings, so `urlRoundtripId` is Go's behaviour here). -/
theorem c2_counterexample :
    (util.NewBucketConfigMap urlRoundtripId (some epDot) (some obcScenario)).map
        (fun cm => lookupKey util.BucketURL cm.data)
      = .ok (some "https://s3.example.com/east/b1")
    ∧ "https://s3.example.com/east/b1" ≠ "https://s3.example.com/./east/b1" := by
  constructor
  · rfl
  · decide

/-- Claim C2 (amended): for plain path segments (non-empty, no `/`,
neither `.` nor `..`) and a net/url round-trip returning the composed
string unchanged (Go's behaviour on these URL-simple strings), the
extended ConfigMap builder composes
`BUCKET_URL = scheme://host[:port]/region/subregion/bucketName`, where the
scheme is `https` exactly when the claim requests SSL and the `:port`
segment is present exactly when the endpoint port is positive; at the
spec's scenario inputs this yields `https://s3.example.com/us/east/b1`
with no port segment. -/
theorem c2_bucket_url_composition (urlRT : util.UrlRoundtrip) (ep : Endpoint)
    (obc : ObjectBucketClaim)
    (h1 : util.plainSegment ep.region) (h2 : util.plainSegment ep.subRegion)
    (h3 : util.plainSegment ep.bucketName)
    (hurl : urlRT (util.composedBucketURL ep obc) = some (util.composedBucketURL ep obc)) :
    (util.NewBucketConfigMap urlRT (some ep) (some obc)).map
        (fun cm => lookupKey util.BucketURL cm.data)
      = .ok (some ((if obc.spec.ssl then "https://" else "http://") ++ ep.bucketHost
          ++ (if ep.bucketPort > 0 then ":" ++ toString ep.bucketPort else "")
          ++ "/" ++ ep.region ++ "/" ++ ep.subRegion ++ "/" ++ ep.bucketName))
    ∧ (util.NewBucketConfigMap urlRoundtripId (some epScenario) (some obcScenario)).map
        (fun cm => lookupKey util.BucketURL cm.data)
      = .ok (some "https://s3.example.com/us/east/b1") := by
  constructor
  · by_cases hp : ep.bucketPort > 0 <;>
      simp only [util.NewBucketConfigMap, hurl] <;>
      simp [Except.map, lookupKey, util.BucketURL, util.BucketName, util.BucketHost,
        util.BucketPort, util.BucketSSL, util.BucketRegion, util.BucketSubRegion,
        util.composedBucketURL, hp,
        pathJoin_plain ep.region ep.subRegion ep.bucketName h1 h2 h3,
        String.append_assoc]
  · rfl

/-- Witness for `c2_bucket_url_composition` at the spec's scenario inputs
under the identity round-trip. -/
theorem c2_bucket_url_composition_witness :
    (util.plainSegment epScenario.region ∧ util.plainSegment epScenario.subRegion
      ∧ util.plainSegment epScenario.bucketName
      ∧ urlRoundtripId (util.composedBucketURL epScenario obcScenario)
          = some (util.composedBucketURL epScenario obcScenario))
    ∧ (util.NewBucketConfigMap urlRoundtripId (some epScenario) (some obcScenario)).map
        (fun cm => lookupKey util.BucketURL cm.data)
      = .ok (some "https://s3.example.com/us/east/b1") :=
  ⟨⟨by decide, by decide, by decide, rfl⟩,
   (c2_bucket_url_composition urlRoundtripId epScenario obcScenario
     (by decide) (by decide) (by decide) rfl).2⟩

